import Mathlib

/-!
Verification development for the Whimsy Screen sketch (`src/sketch.ino`).

The development shallowly embeds the parts of the sketch that the checked
properties are about:

* the safe BMP decoder `drawBMPFromSD_Safe` (sketch lines 199-318),
  modelled as a pure function from the SD file contents (a byte list) and
  the display dimensions to a result code plus a trace of the per-row
  seeks and reads;
* the GIF playback control functions `startGifPlayback` / `stopGifPlayback`
  (lines 608-638) and the HTTP handlers `handleDrawNow`, `handleGifPlay`,
  `handleGifStop` (lines 1565-1595), modelled as transformers of an
  explicit device-state record mirroring the sketch's global variables;
* the streamed upload handlers `beginUploadCommon`,
  `handleUploadBmpStream`, `handleUploadGifStream`, `handleUploadDone`
  (lines 1605-1760); the two stream handlers are textually parallel in the
  source and are modelled by one function parameterised over the asset
  class;
* the cooperative scheduler `loop` (lines 1819-1884), modelled as one
  loop pass producing the next device state together with a log of the
  externally visible actions taken during the pass, in program order.

SD file semantics: a file is a byte list; `seek(pos)` succeeds iff
`pos <= length`; `read(buf, n)` returns `min n (length - pos)` bytes.
Hardware-level faults that are not expressible over file contents
(electrical failures etc.) are outside the model; external decisions the
sketch only observes (success of `SD.begin`, of `gif.open`, of
`gif.playFrame`, the current `millis()` value) are passed in as explicit
oracle arguments.
-/

/-! ### BMP result codes (sketch lines 116-127) -/

inductive BmpResult where
  | ok
  | openFail
  | notBM
  | dibTooSmall
  | badPlanes
  | unsupportedBpp
  | unsupportedComp
  | badDims
  | seekFail
  | shortRead
deriving DecidableEq, Repr

/-! ### Byte-level file reads (sketch `read16`/`read32`, lines 163-177)

`File.read()` returns the next byte, or `-1` at end of file.  The sketch
casts that int to `uint16_t`/`uint32_t` before shifting and or-ing, so an
out-of-range read contributes the all-ones pattern of the target width. -/

/-- One byte of file `f` at absolute position `p`, as seen after the C cast
to an unsigned integer of `2 ^ w` values: in range it is the byte itself,
at EOF it is `(uintN_t)(-1) = 2 ^ w - 1`. -/
def readByteU (w : Nat) (f : List Nat) (p : Nat) : Nat :=
  match f.get? p with
  | some b => b % w
  | none => w - 1

/-- `read16` of the sketch: two sequential byte reads assembled
little-endian into a `uint16_t`. -/
def read16v (f : List Nat) (p : Nat) : Nat :=
  (Nat.lor (readByteU 65536 f p) ((readByteU 65536 f (p + 1)) <<< 8)) % 65536

/-- `read32` of the sketch: four sequential byte reads assembled
little-endian into a `uint32_t`; each shifted term wraps modulo `2 ^ 32`
as the C unsigned arithmetic does. -/
def read32v (f : List Nat) (p : Nat) : Nat :=
  Nat.lor
    (Nat.lor
      (Nat.lor (readByteU 4294967296 f p) (((readByteU 4294967296 f (p + 1)) <<< 8) % 4294967296))
      (((readByteU 4294967296 f (p + 2)) <<< 16) % 4294967296))
    (((readByteU 4294967296 f (p + 3)) <<< 24) % 4294967296)

/-- Reinterpret a `uint32_t` value as the C `int32_t` cast does. -/
def int32 (x : Nat) : Int :=
  if x % 4294967296 < 2147483648 then ((x % 4294967296 : Nat) : Int)
  else ((x % 4294967296 : Nat) : Int) - 4294967296

/-! ### BMP header parsing (sketch lines 211-258)

The sketch reads the header strictly sequentially, so each field lives at
a fixed absolute offset: signature at 0, file size at 2, reserved at 6,
pixel offset at 10, DIB size at 14, width at 18, height at 22, planes at
26, depth at 28, compression at 30, and five further discarded 32-bit
fields ending at byte 54.  The second component of the parse result is
the number of header bytes consumed before returning. -/

/-- The header fields that survive validation and feed the drawing loop. -/
structure BmpInfo where
  pixelOffset : Nat
  w : Int
  hRaw : Int
  depth : Nat
deriving DecidableEq, Repr

/-- Header validation of `drawBMPFromSD_Safe`, in source order: signature,
DIB size, plane count, depth, compression, dimensions.  `fileSize`,
`reserved`, `imgSize` and the four trailing DIB fields are read and
discarded exactly as in the sketch (`(void)read32(bmp)`). -/
def parseBMPHeader (f : List Nat) : Except BmpResult BmpInfo × Nat :=
  let sig := read16v f 0
  if sig ≠ 0x4D42 then (Except.error BmpResult.notBM, 2)
  else
    let pixelOffset := read32v f 10
    let dib := read32v f 14
    if dib < 40 then (Except.error BmpResult.dibTooSmall, 18)
    else
      let w := int32 (read32v f 18)
      let hRaw := int32 (read32v f 22)
      let planes := read16v f 26
      let depth := read16v f 28
      let comp := read32v f 30
      if planes ≠ 1 then (Except.error BmpResult.badPlanes, 54)
      else if ¬(depth = 24 ∨ depth = 32) then (Except.error BmpResult.unsupportedBpp, 54)
      else if ¬(comp = 0 ∨ (comp = 3 ∧ depth = 32)) then (Except.error BmpResult.unsupportedComp, 54)
      else if w ≤ 0 ∨ hRaw = 0 then (Except.error BmpResult.badDims, 54)
      else (Except.ok ⟨pixelOffset, w, hRaw, depth⟩, 54)

/-! ### Derived drawing parameters (sketch lines 257-264) -/

/-- Bytes per pixel, `depth / 8`. -/
def bmpBpp (info : BmpInfo) : Nat := info.depth / 8

/-- Padded row stride: `((uint32_t)bmpW * bpp + 3) & ~3`, with the
`uint32_t` multiplication wrapping modulo `2 ^ 32`. -/
def bmpRowSize (info : BmpInfo) : Nat :=
  Nat.land ((info.w.toNat * bmpBpp info + 3) % 4294967296) 4294967292

/-- `drawW`: the image width clamped to the display width. -/
def bmpDrawW (tftW : Nat) (info : BmpInfo) : Nat :=
  if info.w > (tftW : Int) then tftW else info.w.toNat

/-- `drawH`: the absolute image height clamped to the display height
(the sketch negates a negative height first). -/
def bmpDrawH (tftH : Nat) (info : BmpInfo) : Nat :=
  if info.hRaw.natAbs > tftH then tftH else info.hRaw.natAbs

/-- Bytes requested per row: `drawW * bpp`. -/
def bmpNeed (tftW : Nat) (info : BmpInfo) : Nat := bmpDrawW tftW info * bmpBpp info

/-- Stored row feeding screen row `r`: with `flip` (non-negative height,
bottom-up file) it is `bmpH - 1 - row`, otherwise `row` (sketch line 282). -/
def rowSrcOf (info : BmpInfo) (r : Nat) : Nat :=
  if 0 ≤ info.hRaw then info.hRaw.natAbs - 1 - r else r

/-- File position of the row read for screen row `r`:
`pixelOffset + srcRow * rowSize` in `uint32_t` arithmetic (sketch line 283). -/
def rowPosOf (info : BmpInfo) (r : Nat) : Nat :=
  (info.pixelOffset + rowSrcOf info r * bmpRowSize info) % 4294967296

/-! ### The row-streaming loop (sketch lines 279-312) -/

/-- One recorded row transfer: the destination screen row, the stored
source row, the file position of the seek, and the bytes the read
returned. -/
structure RowRead where
  row : Nat
  srcRow : Nat
  pos : Nat
  data : List Nat
deriving DecidableEq, Repr

/-- The row transfer the loop performs for screen row `r` when the seek and
the full read succeed. -/
def mkRow (f : List Nat) (tftW : Nat) (info : BmpInfo) (r : Nat) : RowRead :=
  ⟨r, rowSrcOf info r, rowPosOf info r, (f.drop (rowPosOf info r)).take (bmpNeed tftW info)⟩

/-- The sketch's `for (row = 0; row < drawH; row++)` body: seek to the
computed position (failing returns `BMP_SEEK_FAIL`), read `drawW * bpp`
bytes (a short read returns `BMP_SHORT_READ`), otherwise record the row
and continue.  The first argument counts the rows still to draw. -/
def drawRows (f : List Nat) (tftW : Nat) (info : BmpInfo) : Nat → Nat → BmpResult × List RowRead
  | 0, _ => (BmpResult.ok, [])
  | Nat.succ k, row =>
    let pos := rowPosOf info row
    if pos ≤ f.length then
      let need := bmpNeed tftW info
      let got := min need (f.length - pos)
      if got = need then
        let rest := drawRows f tftW info k (row + 1)
        (rest.1, mkRow f tftW info row :: rest.2)
      else (BmpResult.shortRead, [⟨row, rowSrcOf info row, pos, (f.drop pos).take got⟩])
    else (BmpResult.seekFail, [])

/-- Convert one raw B,G,R(,A) row into RGB565 pixels exactly as the
per-pixel loop at sketch lines 303-308 does, via
`color565(r, g, b) = (r & 0xF8) << 8 | (g & 0xFC) << 3 | b >> 3`. -/
def color565 (r g b : Nat) : Nat :=
  Nat.lor (Nat.lor ((Nat.land r 0xF8) <<< 8) ((Nat.land g 0xFC) <<< 3)) (b >>> 3)

/-- The RGB565 line pushed for a raw row buffer. -/
def rowTo565 (raw : List Nat) (bpp drawW : Nat) : List Nat :=
  (List.range drawW).map fun x =>
    color565 (raw.getD (x * bpp + 2) 0) (raw.getD (x * bpp + 1) 0) (raw.getD (x * bpp) 0)

/-! ### `drawBMPFromSD_Safe` (sketch lines 199-318) -/

/-- Observable outcome of a `drawBMPFromSD_Safe` call: the result code,
how many header bytes were consumed before returning, whether execution
reached the drawing stage (at which point the sketch stops any GIF
playback, lines 272-274), and the per-row transfer trace. -/
structure BmpOut where
  result : BmpResult
  headerBytes : Nat
  reachedDraw : Bool
  rows : List RowRead
deriving DecidableEq, Repr

/-- `drawBMPFromSD_Safe`, over the SD state (`sdOK`), the opened file
contents (`none` models `SD.open` failure), and the display dimensions. -/
def drawBMPFromSD_Safe (tftW tftH : Nat) (sdOK : Bool) (file : Option (List Nat)) : BmpOut :=
  if sdOK = false then ⟨BmpResult.openFail, 0, false, []⟩
  else
    match file with
    | none => ⟨BmpResult.openFail, 0, false, []⟩
    | some f =>
      match parseBMPHeader f with
      | (Except.error e, n) => ⟨e, n, false, []⟩
      | (Except.ok info, n) =>
        let out := drawRows f tftW info (bmpDrawH tftH info) 0
        ⟨out.1, n, true, out.2⟩

/-! ### Helper lemmas about the drawing loop -/

/-- If every row in the window `[row, row + k)` is fully readable, the
loop succeeds and its trace is exactly one full transfer per row, in
order. -/
theorem drawRows_eq_of_readable (f : List Nat) (tftW : Nat) (info : BmpInfo) :
    ∀ (k row : Nat),
      (∀ i, i < k → rowPosOf info (row + i) + bmpNeed tftW info ≤ f.length) →
      drawRows f tftW info k row
        = (BmpResult.ok, (List.range k).map fun i => mkRow f tftW info (row + i)) := by
  intro k
  induction k with
  | zero => intro row _; simp [drawRows]
  | succ n ih =>
    intro row h
    have h0 : rowPosOf info row + bmpNeed tftW info ≤ f.length := by
      have := h 0 (Nat.succ_pos n)
      simpa using this
    have hpos : rowPosOf info row ≤ f.length := le_trans (Nat.le_add_right _ _) h0
    have hgot : min (bmpNeed tftW info) (f.length - rowPosOf info row) = bmpNeed tftW info :=
      Nat.min_eq_left (by omega)
    have ihres := ih (row + 1) (fun i hi => by
      have := h (i + 1) (by omega)
      have e : row + (i + 1) = row + 1 + i := by omega
      rw [e] at this
      exact this)
    have hfun : (fun i => mkRow f tftW info (row + 1 + i))
        = fun i => mkRow f tftW info (row + (i + 1)) := by
      funext i
      congr 1
      omega
    simp only [drawRows, if_pos hpos, hgot, if_pos rfl, ihres]
    rw [List.range_succ_eq_map, List.map_cons, List.map_map, hfun]
    simp [Function.comp_def, Nat.succ_eq_add_one]

deriving instance DecidableEq for Except

/-- Full success behaviour of the decoder: when the header validates and
every row of the clamped window is fully readable, the call returns
`BMP_OK` after consuming the 54 header bytes, reaches the drawing stage,
and its transfer trace is one full row per destination row, in order. -/
theorem drawStill_ok_spec (tftW tftH : Nat) (f : List Nat) (info : BmpInfo)
    (hparse : parseBMPHeader f = (Except.ok info, 54))
    (hread : ∀ r, r < bmpDrawH tftH info → rowPosOf info r + bmpNeed tftW info ≤ f.length) :
    drawBMPFromSD_Safe tftW tftH true (some f)
      = ⟨BmpResult.ok, 54, true, (List.range (bmpDrawH tftH info)).map (mkRow f tftW info)⟩ := by
  have h0 : ∀ i, i < bmpDrawH tftH info →
      rowPosOf info (0 + i) + bmpNeed tftW info ≤ f.length := by
    intro i hi
    simpa using hread i hi
  have heq := drawRows_eq_of_readable f tftW info (bmpDrawH tftH info) 0 h0
  simp [drawBMPFromSD_Safe, hparse, heq]

/-- A well-formed 1x1 24-bit bottom-up bitmap (header plus one padded
pixel row), used as a concrete valid input. -/
def oneByOneBmp : List Nat :=
  [0x42, 0x4D,
   58, 0, 0, 0,
   0, 0, 0, 0,
   54, 0, 0, 0,
   40, 0, 0, 0,
   1, 0, 0, 0,
   1, 0, 0, 0,
   1, 0,
   24, 0,
   0, 0, 0, 0,
   4, 0, 0, 0,
   0, 0, 0, 0,
   0, 0, 0, 0,
   0, 0, 0, 0,
   0, 0, 0, 0,
   0xAA, 0xBB, 0xCC, 0]

/-- Header of a well-formed 320x240 24-bit bottom-up bitmap with pixel
offset 54 (file size 230454, image size 230400, row stride 960). -/
def bmpHeader320 : List Nat :=
  [0x42, 0x4D,
   0x36, 0x84, 0x03, 0,
   0, 0, 0, 0,
   54, 0, 0, 0,
   40, 0, 0, 0,
   0x40, 0x01, 0, 0,
   0xF0, 0, 0, 0,
   1, 0,
   24, 0,
   0, 0, 0, 0,
   0, 0x84, 0x03, 0,
   0, 0, 0, 0,
   0, 0, 0, 0,
   0, 0, 0, 0,
   0, 0, 0, 0]

/-- A complete 320x240 24-bit bottom-up bitmap file. -/
def bmp320 : List Nat := bmpHeader320 ++ List.replicate 230400 0

/-- The parsed header of `bmp320`. -/
def info320 : BmpInfo := ⟨54, 320, 240, 24⟩

/-- C1: for every bitmap file that passes header validation (signature,
DIB size, plane count 1, depth 24/32 with compression valid accordingly,
width > 0, height nonzero) and in which every per-row seek and per-row
read succeeds, `drawBMPFromSD_Safe` returns `BMP_OK` and reads exactly
`drawH` rows of exactly `drawW * bpp` bytes each, where
`drawW = min width displayWidth` and `drawH = min |height| displayHeight`. -/
theorem drawStill_valid_input_reads_all_rows (tftW tftH : Nat) (f : List Nat) (info : BmpInfo)
    (hparse : parseBMPHeader f = (Except.ok info, 54))
    (hread : ∀ r, r < bmpDrawH tftH info → rowPosOf info r + bmpNeed tftW info ≤ f.length) :
    (drawBMPFromSD_Safe tftW tftH true (some f)).result = BmpResult.ok ∧
    (drawBMPFromSD_Safe tftW tftH true (some f)).rows.length = bmpDrawH tftH info ∧
    (∀ rr ∈ (drawBMPFromSD_Safe tftW tftH true (some f)).rows,
        rr.data.length = bmpNeed tftW info) ∧
    bmpDrawW tftW info = min info.w.toNat tftW ∧
    bmpDrawH tftH info = min info.hRaw.natAbs tftH := by
  have hspec := drawStill_ok_spec tftW tftH f info hparse hread
  refine ⟨by rw [hspec], by simp [hspec], ?_, ?_, ?_⟩
  · intro rr hrr
    rw [hspec] at hrr
    simp only [List.mem_map, List.mem_range] at hrr
    obtain ⟨i, hi, hrfl⟩ := hrr
    subst hrfl
    have hle := hread i hi
    simp only [mkRow, List.length_take, List.length_drop]
    omega
  · unfold bmpDrawW
    split <;> omega
  · unfold bmpDrawH
    split <;> omega

/-- Witness for C1 at the concrete valid 1x1 bitmap. -/
theorem drawStill_valid_input_reads_all_rows_witness :
    parseBMPHeader oneByOneBmp = (Except.ok ⟨54, 1, 1, 24⟩, 54) ∧
    (∀ r, r < bmpDrawH 240 ⟨54, 1, 1, 24⟩ →
        rowPosOf ⟨54, 1, 1, 24⟩ r + bmpNeed 320 ⟨54, 1, 1, 24⟩ ≤ oneByOneBmp.length) ∧
    ((drawBMPFromSD_Safe 320 240 true (some oneByOneBmp)).result = BmpResult.ok ∧
     (drawBMPFromSD_Safe 320 240 true (some oneByOneBmp)).rows.length
        = bmpDrawH 240 ⟨54, 1, 1, 24⟩ ∧
     (∀ rr ∈ (drawBMPFromSD_Safe 320 240 true (some oneByOneBmp)).rows,
        rr.data.length = bmpNeed 320 ⟨54, 1, 1, 24⟩) ∧
     bmpDrawW 320 ⟨54, 1, 1, 24⟩ = min (Int.toNat 1) 320 ∧
     bmpDrawH 240 ⟨54, 1, 1, 24⟩ = min (Int.natAbs 1) 240) :=
  ⟨by decide, by decide,
   drawStill_valid_input_reads_all_rows 320 240 oneByOneBmp ⟨54, 1, 1, 24⟩ (by decide) (by decide)⟩

/-- C6: an input whose first two bytes are not the BM magic is rejected
with `BMP_NOT_BM` after consuming only those two signature bytes — no
further header field is read and no pixel row is touched. -/
theorem drawStill_rejects_bad_signature (tftW tftH : Nat) (f : List Nat)
    (h : read16v f 0 ≠ 0x4D42) :
    drawBMPFromSD_Safe tftW tftH true (some f) = ⟨BmpResult.notBM, 2, false, []⟩ := by
  simp [drawBMPFromSD_Safe, parseBMPHeader, h]

/-- Witness for C6 at a concrete two-byte non-BM input. -/
theorem drawStill_rejects_bad_signature_witness :
    read16v [0x47, 0x49] 0 ≠ 0x4D42 ∧
    drawBMPFromSD_Safe 320 240 true (some [0x47, 0x49]) = ⟨BmpResult.notBM, 2, false, []⟩ :=
  ⟨by decide, drawStill_rejects_bad_signature 320 240 [0x47, 0x49] (by decide)⟩

/-- C5: the decoder reads source rows in reverse file order for positive
(bottom-up) heights — screen row `r` comes from stored row `height-1-r`
at file offset `pixelOffset + (height-1-r) * rowStride` — and in forward
order (`srcRow = r`) for negative (top-down) heights; a 320x240-header
bottom-up bitmap with pixel offset 54 yields 240 pushed rows whose top
screen row is the bitmap's last stored row, each converting to 320
RGB565 pixels. -/
theorem drawStill_row_order (tftW tftH : Nat) (f : List Nat) (info : BmpInfo)
    (hparse : parseBMPHeader f = (Except.ok info, 54))
    (hread : ∀ r, r < bmpDrawH tftH info → rowPosOf info r + bmpNeed tftW info ≤ f.length) :
    (drawBMPFromSD_Safe tftW tftH true (some f)).rows
        = (List.range (bmpDrawH tftH info)).map (mkRow f tftW info) ∧
    (∀ r, 0 ≤ info.hRaw → rowSrcOf info r = info.hRaw.natAbs - 1 - r) ∧
    (∀ r, info.hRaw < 0 → rowSrcOf info r = r) ∧
    (∀ r, info.pixelOffset + rowSrcOf info r * bmpRowSize info < 4294967296 →
        rowPosOf info r = info.pixelOffset + rowSrcOf info r * bmpRowSize info) ∧
    (info.hRaw = 240 → rowSrcOf info 0 = 239) ∧
    (tftH = 240 → info.hRaw = 240 →
        (drawBMPFromSD_Safe tftW tftH true (some f)).rows.length = 240) ∧
    (∀ rr ∈ (drawBMPFromSD_Safe tftW tftH true (some f)).rows,
        (rowTo565 rr.data (bmpBpp info) (bmpDrawW tftW info)).length = bmpDrawW tftW info) := by
  have hspec := drawStill_ok_spec tftW tftH f info hparse hread
  refine ⟨by rw [hspec], ?_, ?_, ?_, ?_, ?_, ?_⟩
  · intro r hr
    simp [rowSrcOf, hr]
  · intro r hr
    simp [rowSrcOf, not_le.mpr hr]
  · intro r hr
    simp only [rowPosOf]
    exact Nat.mod_eq_of_lt hr
  · intro hh
    simp [rowSrcOf, hh]
  · intro htft hh
    rw [hspec]
    simp [bmpDrawH, hh, htft]
  · intro rr _
    simp [rowTo565]

/-! ### Device state (the sketch's globals, lines 85-112)

One record holds the mutable globals the checked properties mention.  The
two SD asset slots `/latest.bmp` and `/latest.gif` are modelled as
optional byte lists (`none` = file absent); the open `AnimatedGIF`
session and the open upload write handle are modelled as booleans. -/

/-- Failure messages the upload path can store (`uploadErrorMsg`); the
sketch formats fixed strings, modelled here as tags. -/
inductive UpMsg where
  | noMsg
  | sdBeginFailed
  | openForWriteFailed
  | tooLargeBmp
  | tooLargeGif
  | sdWriteFailed
  | noFileHandle
  | aborted
deriving DecidableEq, Repr

/-- The sketch's global device state. -/
structure Dev where
  sdOK : Bool
  firstBmpReceived : Bool
  firstGifReceived : Bool
  pendingDrawBMP : Bool
  pendingStartGIF : Bool
  lastUploadBytes : Nat
  uploadError : Bool
  uploadErrorMsg : UpMsg
  lastBmpResult : BmpResult
  gifPlaying : Bool
  gifLoop : Bool
  gifNextFrameMs : Nat
  gifLastDelayMs : Int
  gifLastError : Int
  gifSessionOpen : Bool
  bmpFile : Option (List Nat)
  gifFile : Option (List Nat)
  uploadHandleOpen : Bool
  uploadBytes : Nat
deriving DecidableEq, Repr

/-- Boot-time state after a successful `SD.begin` with both slots empty. -/
def devInit : Dev :=
  { sdOK := true
    firstBmpReceived := false
    firstGifReceived := false
    pendingDrawBMP := false
    pendingStartGIF := false
    lastUploadBytes := 0
    uploadError := false
    uploadErrorMsg := UpMsg.noMsg
    lastBmpResult := BmpResult.ok
    gifPlaying := false
    gifLoop := true
    gifNextFrameMs := 0
    gifLastDelayMs := 0
    gifLastError := 0
    gifSessionOpen := false
    bmpFile := none
    gifFile := none
    uploadHandleOpen := false
    uploadBytes := 0 }

/-- HTTP responses of the modelled handlers. -/
inductive HttpResp where
  | ok200
  | err500
deriving DecidableEq, Repr

/-! ### GIF control (sketch lines 608-638) -/

/-- `stopGifPlayback`: clear the playing flag and close the decoder
session (`gif.close()` on an already-closed session is a no-op). -/
def stopGifPlayback (d : Dev) : Dev :=
  { d with gifPlaying := false, gifSessionOpen := false }

/-- `startGifPlayback(loop)`: fail without touching state when the SD is
not initialised or `/latest.gif` is absent; otherwise close any previous
session, record the loop flag, and attempt `gif.open` — whose success
(`openOk`) and reported error code (`openErr`) are external inputs, as is
the current `millis()` value (`now`). -/
def startGifPlayback (now : Nat) (openOk : Bool) (openErr : Int) (loop : Bool) (d : Dev) :
    Bool × Dev :=
  if d.sdOK = false then (false, d)
  else if d.gifFile = none then (false, d)
  else
    let d := { d with gifSessionOpen := false, gifPlaying := false, gifLoop := loop }
    if openOk then
      (true, { d with gifSessionOpen := true, gifLastError := openErr, gifPlaying := true,
                      gifNextFrameMs := now, gifLastDelayMs := 0 })
    else (false, { d with gifLastError := openErr })

/-! ### Synchronous HTTP handlers (sketch lines 1565-1595) -/

/-- `handleDrawNow` (`POST /api/draw`): stop the GIF, set the pending
draw flag, answer 200. -/
def handleDrawNow (d : Dev) : HttpResp × Dev :=
  (HttpResp.ok200, { stopGifPlayback d with pendingDrawBMP := true })

/-- `handleGifPlay` (`POST /api/gif/play`): read the optional `loop`
argument (default true), clear any pending BMP draw, then try to start
playback; 200 on success, 500 on failure. -/
def handleGifPlay (now : Nat) (openOk : Bool) (openErr : Int) (loopArg : Option Int) (d : Dev) :
    HttpResp × Dev :=
  let loop := match loopArg with
    | some v => v != 0
    | none => true
  let d := { d with pendingDrawBMP := false }
  let r := startGifPlayback now openOk openErr loop d
  (if r.1 then HttpResp.ok200 else HttpResp.err500, r.2)

/-- `handleGifStop` (`POST /api/gif/stop`). -/
def handleGifStop (d : Dev) : HttpResp × Dev :=
  (HttpResp.ok200, stopGifPlayback d)

/-! ### Streamed uploads (sketch lines 1601-1760)

`handleUploadBmpStream` and `handleUploadGifStream` are textually
parallel; they differ only in the target path, the byte ceiling, the
oversize message, and the end-of-upload action.  The model captures both
through an `Asset` parameter. -/

/-- The two single-slot asset classes. -/
inductive Asset where
  | bmp
  | gif
deriving DecidableEq, Repr

/-- The contents of the asset's slot on SD. -/
def getAssetFile : Asset → Dev → Option (List Nat)
  | Asset.bmp, d => d.bmpFile
  | Asset.gif, d => d.gifFile

/-- Replace the contents of the asset's slot on SD. -/
def setAssetFile : Asset → Option (List Nat) → Dev → Dev
  | Asset.bmp, v, d => { d with bmpFile := v }
  | Asset.gif, v, d => { d with gifFile := v }

/-- `MAX_UPLOAD_BMP_BYTES` / `MAX_UPLOAD_GIF_BYTES` (sketch lines 59-60). -/
def assetMax : Asset → Nat
  | Asset.bmp => 450000
  | Asset.gif => 1300000

/-- The oversize failure message of each handler. -/
def assetTooLargeMsg : Asset → UpMsg
  | Asset.bmp => UpMsg.tooLargeBmp
  | Asset.gif => UpMsg.tooLargeGif

/-- The four callback states of `HTTPUpload` the handlers dispatch on. -/
inductive UpEvent where
  | start
  | write (data : List Nat)
  | done
  | aborted
deriving DecidableEq, Repr

/-- `beginUploadCommon` (sketch lines 1605-1619): reset the failure flag,
message and byte counter, stop any active GIF playback, retry `SD.begin`
if needed (its success `sdBeginOk` is an external input), and mark the
session failed when the SD is still unavailable. -/
def beginUploadCommon (sdBeginOk : Bool) (d : Dev) : Dev :=
  let d := { d with uploadError := false, uploadErrorMsg := UpMsg.noMsg, uploadBytes := 0 }
  let d := if d.gifPlaying then stopGifPlayback d else d
  let d := if d.sdOK = false then { d with sdOK := sdBeginOk } else d
  if d.sdOK = false then { d with uploadError := true, uploadErrorMsg := UpMsg.sdBeginFailed }
  else d

/-- One callback invocation of the streamed upload handler for asset `a`
(sketch lines 1621-1686 and 1688-1752).  `openOk` is the success of
`SD.open(..., FILE_WRITE)`.  Writes model an SD card that accepts every
in-bounds write in full (the short-write branch sets `sdWriteFailed` in
the sketch and is outside this ideal-card model). -/
def handleUploadStream (a : Asset) (sdBeginOk openOk : Bool) (ev : UpEvent) (d : Dev) : Dev :=
  match ev with
  | UpEvent.start =>
    let d := beginUploadCommon sdBeginOk d
    let d := { d with lastUploadBytes := 0 }
    if d.uploadError then d
    else
      let d := setAssetFile a none d
      if openOk then { setAssetFile a (some []) d with uploadHandleOpen := true }
      else { d with uploadError := true, uploadErrorMsg := UpMsg.openForWriteFailed }
  | UpEvent.write data =>
    if d.uploadError then d
    else
      let bytes := d.uploadBytes + data.length
      let d := { d with uploadBytes := bytes, lastUploadBytes := bytes }
      if bytes > assetMax a then
        setAssetFile a none
          { d with uploadError := true, uploadErrorMsg := assetTooLargeMsg a,
                   uploadHandleOpen := false }
      else if d.uploadHandleOpen then
        setAssetFile a (some ((getAssetFile a d).getD [] ++ data)) d
      else { d with uploadError := true, uploadErrorMsg := UpMsg.noFileHandle }
  | UpEvent.done =>
    let d := { d with uploadHandleOpen := false }
    if d.uploadError then d
    else
      match a with
      | Asset.bmp =>
        { stopGifPlayback { d with firstBmpReceived := true } with pendingDrawBMP := true }
      | Asset.gif =>
        { d with firstGifReceived := true, pendingStartGIF := true }
  | UpEvent.aborted =>
    { d with uploadHandleOpen := false, uploadError := true, uploadErrorMsg := UpMsg.aborted }

/-- `handleUploadBmpStream`: the BMP instance of the common handler. -/
def handleUploadBmpStream (sdBeginOk openOk : Bool) (ev : UpEvent) (d : Dev) : Dev :=
  handleUploadStream Asset.bmp sdBeginOk openOk ev d

/-- `handleUploadGifStream`: the GIF instance of the common handler. -/
def handleUploadGifStream (sdBeginOk openOk : Bool) (ev : UpEvent) (d : Dev) : Dev :=
  handleUploadStream Asset.gif sdBeginOk openOk ev d

/-- `handleUploadDone`: the synchronous response after the streamed body. -/
def handleUploadDone (d : Dev) : HttpResp :=
  if d.uploadError then HttpResp.err500 else HttpResp.ok200

/-- Concatenation of the uploaded chunks. -/
def concatChunks : List (List Nat) → List Nat
  | [] => []
  | c :: cs => c ++ concatChunks cs

/-- The sequence of `write` callbacks for a list of body chunks. -/
def foldWrites (a : Asset) (sdBeginOk openOk : Bool) (chunks : List (List Nat)) (d : Dev) : Dev :=
  chunks.foldl (fun t c => handleUploadStream a sdBeginOk openOk (UpEvent.write c) t) d

/-- A whole upload as the dispatcher delivers it: `onStart`, one `write`
per chunk, then `onEnd`. -/
def runUpload (a : Asset) (sdBeginOk openOk : Bool) (chunks : List (List Nat)) (d : Dev) : Dev :=
  handleUploadStream a sdBeginOk openOk UpEvent.done
    (foldWrites a sdBeginOk openOk chunks (handleUploadStream a sdBeginOk openOk UpEvent.start d))

/-! ### Helper lemmas about the upload model -/

@[simp] theorem getAssetFile_set (a : Asset) (v : Option (List Nat)) (d : Dev) :
    getAssetFile a (setAssetFile a v d) = v := by
  cases a <;> rfl

@[simp] theorem setAssetFile_uploadError (a : Asset) (v : Option (List Nat)) (d : Dev) :
    (setAssetFile a v d).uploadError = d.uploadError := by
  cases a <;> rfl

@[simp] theorem setAssetFile_uploadErrorMsg (a : Asset) (v : Option (List Nat)) (d : Dev) :
    (setAssetFile a v d).uploadErrorMsg = d.uploadErrorMsg := by
  cases a <;> rfl

@[simp] theorem setAssetFile_uploadHandleOpen (a : Asset) (v : Option (List Nat)) (d : Dev) :
    (setAssetFile a v d).uploadHandleOpen = d.uploadHandleOpen := by
  cases a <;> rfl

@[simp] theorem setAssetFile_uploadBytes (a : Asset) (v : Option (List Nat)) (d : Dev) :
    (setAssetFile a v d).uploadBytes = d.uploadBytes := by
  cases a <;> rfl

@[simp] theorem setAssetFile_gifPlaying (a : Asset) (v : Option (List Nat)) (d : Dev) :
    (setAssetFile a v d).gifPlaying = d.gifPlaying := by
  cases a <;> rfl

@[simp] theorem setAssetFile_pendingDrawBMP (a : Asset) (v : Option (List Nat)) (d : Dev) :
    (setAssetFile a v d).pendingDrawBMP = d.pendingDrawBMP := by
  cases a <;> rfl

/-- A fresh `onStart` with a working card and a successful `SD.open`
leaves a clean session: no error, open handle, zero byte counter, an
empty (freshly recreated) slot, and — crucially — playback stopped. -/
theorem uploadStart_ok (a : Asset) (d : Dev) :
    (handleUploadStream a true true UpEvent.start d).uploadError = false ∧
    (handleUploadStream a true true UpEvent.start d).uploadHandleOpen = true ∧
    (handleUploadStream a true true UpEvent.start d).uploadBytes = 0 ∧
    getAssetFile a (handleUploadStream a true true UpEvent.start d) = some [] := by
  cases a <;> cases hg : d.gifPlaying <;> cases hs : d.sdOK <;>
    simp [handleUploadStream, beginUploadCommon, stopGifPlayback, setAssetFile, getAssetFile,
      hg, hs]

/-- A `write` callback on an already-failed session changes nothing. -/
theorem uploadWrite_failed_id (a : Asset) (sdb opk : Bool) (c : List Nat) (d : Dev)
    (h : d.uploadError = true) :
    handleUploadStream a sdb opk (UpEvent.write c) d = d := by
  simp [handleUploadStream, h]

theorem foldWrites_nil (a : Asset) (sdb opk : Bool) (d : Dev) :
    foldWrites a sdb opk [] d = d := rfl

theorem foldWrites_cons (a : Asset) (sdb opk : Bool) (c : List Nat) (cs : List (List Nat))
    (d : Dev) :
    foldWrites a sdb opk (c :: cs) d
      = foldWrites a sdb opk cs (handleUploadStream a sdb opk (UpEvent.write c) d) := rfl

/-- All further chunks are dropped once the session has failed. -/
theorem foldWrites_failed_id (a : Asset) (sdb opk : Bool) (chunks : List (List Nat)) :
    ∀ d : Dev, d.uploadError = true → foldWrites a sdb opk chunks d = d := by
  induction chunks with
  | nil => intro d _; rfl
  | cons c cs ih =>
    intro d h
    rw [foldWrites_cons, uploadWrite_failed_id a sdb opk c d h]
    exact ih d h

/-- As long as the running total stays within the ceiling, the chunk
writes succeed: they append each chunk to the slot in order, keep the
handle open, leave the failure flag clear, and accumulate the counter. -/
theorem foldWrites_ok (a : Asset) (sdb opk : Bool) :
    ∀ (chunks : List (List Nat)) (d : Dev) (content : List Nat),
      d.uploadError = false → d.uploadHandleOpen = true → getAssetFile a d = some content →
      d.uploadBytes + (chunks.map List.length).sum ≤ assetMax a →
      (foldWrites a sdb opk chunks d).uploadError = false ∧
      (foldWrites a sdb opk chunks d).uploadHandleOpen = true ∧
      (foldWrites a sdb opk chunks d).uploadBytes
          = d.uploadBytes + (chunks.map List.length).sum ∧
      getAssetFile a (foldWrites a sdb opk chunks d) = some (content ++ concatChunks chunks) := by
  intro chunks
  induction chunks with
  | nil =>
    intro d content he hh hf _
    simp only [foldWrites_nil, List.map_nil, List.sum_nil, Nat.add_zero, concatChunks,
      List.append_nil]
    exact ⟨he, hh, by trivial, hf⟩
  | cons c cs ih =>
    intro d content he hh hf hle
    simp only [List.map_cons, List.sum_cons] at hle
    have hnot : ¬ d.uploadBytes + c.length > assetMax a := by omega
    have hstep : handleUploadStream a sdb opk (UpEvent.write c) d
        = setAssetFile a (some (content ++ c))
            { d with uploadBytes := d.uploadBytes + c.length,
                     lastUploadBytes := d.uploadBytes + c.length } := by
      cases a <;>
        simp_all [handleUploadStream, setAssetFile, getAssetFile]
    have hrec := ih (setAssetFile a (some (content ++ c))
        { d with uploadBytes := d.uploadBytes + c.length,
                 lastUploadBytes := d.uploadBytes + c.length })
      (content ++ c) (by simp [he]) (by simp [hh]) (by simp)
      (by simp only [setAssetFile_uploadBytes]; omega)
    rw [foldWrites_cons, hstep]
    refine ⟨hrec.1, hrec.2.1, ?_, ?_⟩
    · rw [hrec.2.2.1]
      simp only [setAssetFile_uploadBytes, List.map_cons, List.sum_cons]
      omega
    · rw [hrec.2.2.2]
      simp [concatChunks, List.append_assoc]

/-- Once the running total would exceed the ceiling, the offending chunk
write marks the session failed with the oversize message, closes the
handle and removes the partial file, and every later chunk is dropped. -/
theorem foldWrites_overflow (a : Asset) (sdb opk : Bool) :
    ∀ (chunks : List (List Nat)) (d : Dev),
      d.uploadError = false → d.uploadHandleOpen = true →
      d.uploadBytes ≤ assetMax a →
      assetMax a < d.uploadBytes + (chunks.map List.length).sum →
      (foldWrites a sdb opk chunks d).uploadError = true ∧
      (foldWrites a sdb opk chunks d).uploadErrorMsg = assetTooLargeMsg a ∧
      getAssetFile a (foldWrites a sdb opk chunks d) = none ∧
      (foldWrites a sdb opk chunks d).uploadHandleOpen = false := by
  intro chunks
  induction chunks with
  | nil =>
    intro d _ _ hb hover
    simp only [List.map_nil, List.sum_nil, Nat.add_zero] at hover
    omega
  | cons c cs ih =>
    intro d he hh hb hover
    simp only [List.map_cons, List.sum_cons] at hover
    by_cases hc : d.uploadBytes + c.length > assetMax a
    · have h1 : (handleUploadStream a sdb opk (UpEvent.write c) d).uploadError = true := by
        cases a <;> simp [handleUploadStream, he, hc, setAssetFile]
      have h2 : (handleUploadStream a sdb opk (UpEvent.write c) d).uploadErrorMsg
          = assetTooLargeMsg a := by
        cases a <;> simp [handleUploadStream, he, hc, setAssetFile, assetTooLargeMsg]
      have h3 : getAssetFile a (handleUploadStream a sdb opk (UpEvent.write c) d) = none := by
        cases a <;> simp [handleUploadStream, he, hc, setAssetFile, getAssetFile]
      have h4 : (handleUploadStream a sdb opk (UpEvent.write c) d).uploadHandleOpen = false := by
        cases a <;> simp [handleUploadStream, he, hc, setAssetFile]
      rw [foldWrites_cons, foldWrites_failed_id a sdb opk cs _ h1]
      exact ⟨h1, h2, h3, h4⟩
    · have hstep : handleUploadStream a sdb opk (UpEvent.write c) d
          = setAssetFile a (some ((getAssetFile a d).getD [] ++ c))
              { d with uploadBytes := d.uploadBytes + c.length,
                       lastUploadBytes := d.uploadBytes + c.length } := by
        cases a <;> simp_all [handleUploadStream, setAssetFile, getAssetFile]
      rw [foldWrites_cons, hstep]
      exact ih _ (by simp [he]) (by simp [hh])
        (by simp only [setAssetFile_uploadBytes]; omega)
        (by simp only [setAssetFile_uploadBytes]; omega)

/-- `onEnd` on a failed session just closes the handle. -/
theorem uploadDone_failed (a : Asset) (sdb opk : Bool) (d : Dev) (h : d.uploadError = true) :
    handleUploadStream a sdb opk UpEvent.done d = { d with uploadHandleOpen := false } := by
  simp [handleUploadStream, h]

/-- `onEnd` on a clean session keeps the failure flag clear and does not
touch the asset slot (it only closes the handle, records the asset as
received, and posts the pending action). -/
theorem uploadDone_ok_fields (a : Asset) (sdb opk : Bool) (d : Dev) (h : d.uploadError = false) :
    (handleUploadStream a sdb opk UpEvent.done d).uploadError = false ∧
    getAssetFile a (handleUploadStream a sdb opk UpEvent.done d) = getAssetFile a d := by
  cases a <;> simp [handleUploadStream, h, stopGifPlayback, getAssetFile]

/-- C3: an upload whose total size exceeds the asset-specific ceiling is
marked failed with the oversize message, the partial file is deleted (the
slot is left absent) and no further chunks are written, so the final
response is the 500 failure; while any upload whose total size is within
the ceiling (in particular exactly `limitBytes`) succeeds, leaving the
slot holding exactly the concatenated body. -/
theorem upload_size_limit_boundary (a : Asset) (chunks : List (List Nat)) (d : Dev) :
    (assetMax a < (chunks.map List.length).sum →
        (runUpload a true true chunks d).uploadError = true ∧
        (runUpload a true true chunks d).uploadErrorMsg = assetTooLargeMsg a ∧
        getAssetFile a (runUpload a true true chunks d) = none ∧
        handleUploadDone (runUpload a true true chunks d) = HttpResp.err500) ∧
    ((chunks.map List.length).sum ≤ assetMax a →
        (runUpload a true true chunks d).uploadError = false ∧
        getAssetFile a (runUpload a true true chunks d) = some (concatChunks chunks) ∧
        handleUploadDone (runUpload a true true chunks d) = HttpResp.ok200) := by
  obtain ⟨hse, hsh, hsb, hsf⟩ := uploadStart_ok a d
  constructor
  · intro hover
    obtain ⟨f1, f2, f3, f4⟩ := foldWrites_overflow a true true chunks
      (handleUploadStream a true true UpEvent.start d) hse hsh (by omega) (by omega)
    have hdone : runUpload a true true chunks d
        = { foldWrites a true true chunks (handleUploadStream a true true UpEvent.start d)
            with uploadHandleOpen := false } := by
      rw [runUpload, uploadDone_failed a true true _ f1]
    refine ⟨?_, ?_, ?_, ?_⟩
    · rw [hdone]; simpa using f1
    · rw [hdone]; simpa using f2
    · rw [hdone]
      cases a <;> simp_all [getAssetFile]
    · rw [hdone]; simp [handleUploadDone, f1]
  · intro hle
    obtain ⟨f1, f2, f3, f4⟩ := foldWrites_ok a true true chunks
      (handleUploadStream a true true UpEvent.start d) [] hse hsh hsf (by omega)
    have hfe : getAssetFile a
        (foldWrites a true true chunks (handleUploadStream a true true UpEvent.start d))
        = some (concatChunks chunks) := by simpa using f4
    obtain ⟨g1, g2⟩ := uploadDone_ok_fields a true true
      (foldWrites a true true chunks (handleUploadStream a true true UpEvent.start d)) f1
    refine ⟨?_, ?_, ?_⟩
    · rw [runUpload]; exact g1
    · rw [runUpload]; exact g2.trans hfe
    · rw [runUpload]
      simp [handleUploadDone, g1]

/-- Witness for C3 at the BMP ceiling: 450001 bytes fail and delete the
slot, 450000 bytes succeed. -/
theorem upload_size_limit_boundary_witness :
    ((runUpload Asset.bmp true true [List.replicate 450001 0] devInit).uploadError = true ∧
     (runUpload Asset.bmp true true [List.replicate 450001 0] devInit).uploadErrorMsg
        = assetTooLargeMsg Asset.bmp ∧
     getAssetFile Asset.bmp (runUpload Asset.bmp true true [List.replicate 450001 0] devInit)
        = none ∧
     handleUploadDone (runUpload Asset.bmp true true [List.replicate 450001 0] devInit)
        = HttpResp.err500) ∧
    ((runUpload Asset.bmp true true [List.replicate 450000 0] devInit).uploadError = false ∧
     getAssetFile Asset.bmp (runUpload Asset.bmp true true [List.replicate 450000 0] devInit)
        = some (concatChunks [List.replicate 450000 0]) ∧
     handleUploadDone (runUpload Asset.bmp true true [List.replicate 450000 0] devInit)
        = HttpResp.ok200) :=
  ⟨(upload_size_limit_boundary Asset.bmp [List.replicate 450001 0] devInit).1
      (by simp only [List.map_cons, List.map_nil, List.sum_cons, List.sum_nil,
            List.length_replicate, assetMax]
          omega),
   (upload_size_limit_boundary Asset.bmp [List.replicate 450000 0] devInit).2
      (by simp only [List.map_cons, List.map_nil, List.sum_cons, List.sum_nil,
            List.length_replicate, assetMax]
          omega)⟩

/-- C2 counterexample: the claim says a failed or aborted upload leaves
no readable truncated file, the `onAbort` handling closing AND deleting
the partial file.  In the code the aborted branch only closes the handle
and sets the error; it never calls `SD.remove`.  Concretely: a BMP upload
that starts, writes one chunk `[7]`, and is then aborted leaves the
truncated file `[7]` readable at the target path. -/
theorem upload_abort_leaves_partial_file :
    (handleUploadBmpStream true true UpEvent.aborted
      (handleUploadBmpStream true true (UpEvent.write [7])
        (handleUploadBmpStream true true UpEvent.start devInit))).uploadError = true ∧
    (handleUploadBmpStream true true UpEvent.aborted
      (handleUploadBmpStream true true (UpEvent.write [7])
        (handleUploadBmpStream true true UpEvent.start devInit))).uploadErrorMsg
      = UpMsg.aborted ∧
    (handleUploadBmpStream true true UpEvent.aborted
      (handleUploadBmpStream true true (UpEvent.write [7])
        (handleUploadBmpStream true true UpEvent.start devInit))).bmpFile = some [7] := by
  refine ⟨rfl, rfl, rfl⟩

/-- C2 amended: `onAbort` closes the handle and marks the session failed
with the aborted message, but does NOT delete the partial file — the
slot's contents are whatever the chunks written so far left there (only
the oversize path deletes the file). -/
theorem upload_abort_closes_but_keeps_file (a : Asset) (sdb opk : Bool) (d : Dev) :
    (handleUploadStream a sdb opk UpEvent.aborted d).uploadError = true ∧
    (handleUploadStream a sdb opk UpEvent.aborted d).uploadErrorMsg = UpMsg.aborted ∧
    (handleUploadStream a sdb opk UpEvent.aborted d).uploadHandleOpen = false ∧
    getAssetFile a (handleUploadStream a sdb opk UpEvent.aborted d) = getAssetFile a d := by
  cases a <;> simp [handleUploadStream, getAssetFile]

/-- Every `write` callback leaves the playback flag untouched. -/
theorem uploadWrite_gifPlaying (a : Asset) (sdb opk : Bool) (c : List Nat) (d : Dev) :
    (handleUploadStream a sdb opk (UpEvent.write c) d).gifPlaying = d.gifPlaying := by
  cases he : d.uploadError
  · simp only [handleUploadStream, he]
    split_ifs <;> cases a <;> simp [setAssetFile]
  · simp [handleUploadStream, he]

/-- C4: `onStart` of either asset class stops any active animation before
touching storage, and no chunk write restarts it: at the moment storage
writing begins — and throughout the chunk stream — `gifPlaying` is false,
so the device is never ingesting and playing simultaneously. -/
theorem upload_start_stops_playback (a : Asset) (sdb opk : Bool) (d : Dev)
    (chunks : List (List Nat)) :
    (handleUploadStream a sdb opk UpEvent.start d).gifPlaying = false ∧
    (foldWrites a sdb opk chunks
        (handleUploadStream a sdb opk UpEvent.start d)).gifPlaying = false := by
  have hstart : (handleUploadStream a sdb opk UpEvent.start d).gifPlaying = false := by
    cases a <;> cases hg : d.gifPlaying <;> cases hs : d.sdOK <;> cases sdb <;> cases opk <;>
      simp [handleUploadStream, beginUploadCommon, stopGifPlayback, setAssetFile, hg, hs]
  refine ⟨hstart, ?_⟩
  generalize handleUploadStream a sdb opk UpEvent.start d = s at hstart
  induction chunks generalizing s with
  | nil => simpa [foldWrites_nil] using hstart
  | cons c cs ih =>
    rw [foldWrites_cons]
    exact ih _ (by rw [uploadWrite_gifPlaying]; exact hstart)

/-- C8: `stopGifPlayback` is idempotent and always safe: a second stop
leaves exactly the state of a single stop, and after any stop — in
particular one issued while already stopped — the playing flag is false
(the function returns nothing, so there is no error to return). -/
theorem stopGifPlayback_idempotent (d : Dev) :
    stopGifPlayback (stopGifPlayback d) = stopGifPlayback d ∧
    (stopGifPlayback d).gifPlaying = false ∧
    (d.gifPlaying = false → d.gifSessionOpen = false → stopGifPlayback d = d) := by
  refine ⟨rfl, rfl, ?_⟩
  intro h1 h2
  cases d
  simp_all [stopGifPlayback]

/-- Witness for C8 at the already-stopped boot state. -/
theorem stopGifPlayback_idempotent_witness :
    stopGifPlayback (stopGifPlayback devInit) = stopGifPlayback devInit ∧
    (stopGifPlayback devInit).gifPlaying = false ∧
    (devInit.gifPlaying = false → devInit.gifSessionOpen = false →
        stopGifPlayback devInit = devInit) :=
  stopGifPlayback_idempotent devInit

/-- `startGifPlayback` fails without touching any state when the SD is
unavailable or the animation file is absent (it returns before the
session fields are written). -/
theorem startGifPlayback_noAsset (now : Nat) (openOk : Bool) (openErr : Int) (loop : Bool)
    (d : Dev) (h : d.gifFile = none ∨ d.sdOK = false) :
    startGifPlayback now openOk openErr loop d = (false, d) := by
  rcases h with h | h
  · cases hs : d.sdOK
    · simp [startGifPlayback, hs]
    · simp [startGifPlayback, hs, h]
  · simp [startGifPlayback, h]

/-- C9: starting playback when the animation asset is absent (or the SD
is not initialised) fails: `startGifPlayback` returns false and leaves
the state — in particular `gifPlaying` and the session — untouched, and
the play request is answered 500 with no state change beyond the
always-performed clearing of the pending draw flag. -/
theorem startGif_missing_asset_fails (now : Nat) (openOk : Bool) (openErr : Int)
    (loop : Bool) (loopArg : Option Int) (d : Dev)
    (h : d.gifFile = none ∨ d.sdOK = false) :
    startGifPlayback now openOk openErr loop d = (false, d) ∧
    (handleGifPlay now openOk openErr loopArg d).1 = HttpResp.err500 ∧
    (handleGifPlay now openOk openErr loopArg d).2 = { d with pendingDrawBMP := false } := by
  have h1 := startGifPlayback_noAsset now openOk openErr loop d h
  have h' : ({ d with pendingDrawBMP := false } : Dev).gifFile = none ∨
      ({ d with pendingDrawBMP := false } : Dev).sdOK = false := by
    simpa using h
  refine ⟨h1, ?_, ?_⟩
  · simp [handleGifPlay, startGifPlayback_noAsset now openOk openErr _ _ h']
  · simp [handleGifPlay, startGifPlayback_noAsset now openOk openErr _ _ h']

/-- Witness for C9 at the boot state, whose animation slot is empty. -/
theorem startGif_missing_asset_fails_witness :
    (devInit.gifFile = none ∨ devInit.sdOK = false) ∧
    (startGifPlayback 0 true 0 true devInit = (false, devInit) ∧
     (handleGifPlay 0 true 0 none devInit).1 = HttpResp.err500 ∧
     (handleGifPlay 0 true 0 none devInit).2 = { devInit with pendingDrawBMP := false }) :=
  ⟨Or.inl rfl, startGif_missing_asset_fails 0 true 0 true none devInit (Or.inl rfl)⟩

/-- `startGifPlayback` never touches the pending draw flag. -/
theorem startGifPlayback_pendingDrawBMP (now : Nat) (openOk : Bool) (openErr : Int)
    (loop : Bool) (d : Dev) :
    (startGifPlayback now openOk openErr loop d).2.pendingDrawBMP = d.pendingDrawBMP := by
  simp only [startGifPlayback]
  split_ifs <;> simp

/-- C10: a play request clears any pending still-image redraw before
attempting to start playback, so after `handleGifPlay` the pending draw
flag is false whatever it was before and however the start attempt went. -/
theorem gifPlay_clears_pending_draw (now : Nat) (openOk : Bool) (openErr : Int)
    (loopArg : Option Int) (d : Dev) :
    (handleGifPlay now openOk openErr loopArg d).2.pendingDrawBMP = false := by
  simp [handleGifPlay, startGifPlayback_pendingDrawBMP]

/-! ### The scheduler loop (sketch lines 1819-1884)

One pass of `loop()` is modelled as a function from the incoming request
(at most one unit of dispatch per pass) and the device state to the next
state plus a log of the externally visible actions of the pass, in
program order: the dispatch marker, then still-drawing events, then the
pending-GIF start, then the animation tick.  The two `return` statements
inside the pending-draw block (SD unavailable / file missing) end the
pass early, exactly as in the sketch. -/

/-- Externally visible actions of one loop pass. -/
inductive Ev where
  | reqDispatched
  | bannered
  | drewStill (r : BmpResult)
  | gifStarted (ok : Bool)
  | framePlayed
deriving DecidableEq, Repr

/-- The requests the dispatcher can deliver during one pass. -/
inductive Req where
  | uploadBmp (chunks : List (List Nat))
  | uploadGif (chunks : List (List Nat))
  | drawNow
  | gifPlay (loopArg : Option Int)
  | gifStop
deriving DecidableEq, Repr

/-- `server.handleClient()`: process one complete request, including a
chunked upload body delivered through the streaming handlers. -/
def dispatch (now : Nat) (sdb opk gifOpenOk : Bool) (gifOpenErr : Int) (r : Req) (d : Dev) :
    Dev :=
  match r with
  | Req.uploadBmp chunks => runUpload Asset.bmp sdb opk chunks d
  | Req.uploadGif chunks => runUpload Asset.gif sdb opk chunks d
  | Req.drawNow => (handleDrawNow d).2
  | Req.gifPlay loopArg => (handleGifPlay now gifOpenOk gifOpenErr loopArg d).2
  | Req.gifStop => (handleGifStop d).2

/-- Phase 1 of a pass: request dispatch. -/
def loopDispatch (now : Nat) (sdb opk gifOpenOk : Bool) (gifOpenErr : Int)
    (req : Option Req) (d : Dev) : Dev × List Ev :=
  match req with
  | none => (d, [])
  | some r => (dispatch now sdb opk gifOpenOk gifOpenErr r d, [Ev.reqDispatched])

/-- Phase 2 of a pass: the `pendingDrawBMP` block (sketch lines
1823-1853).  The third component is false when the block hits one of its
early `return` statements, ending the pass. -/
def loopDrawPhase (tftW tftH : Nat) (d : Dev) : Dev × List Ev × Bool :=
  if d.pendingDrawBMP then
    let d := { d with pendingDrawBMP := false }
    if d.sdOK = false then
      ({ d with lastBmpResult := BmpResult.openFail }, [Ev.bannered], false)
    else if d.bmpFile = none then
      ({ d with lastBmpResult := BmpResult.openFail }, [Ev.bannered], false)
    else
      let out := drawBMPFromSD_Safe tftW tftH d.sdOK d.bmpFile
      let d := if out.reachedDraw then { d with gifPlaying := false, gifSessionOpen := false }
               else d
      let d := { d with lastBmpResult := out.result }
      if out.result = BmpResult.ok then (d, [Ev.drewStill out.result], true)
      else (d, [Ev.drewStill out.result, Ev.bannered], true)
  else (d, [], true)

/-- Phase 3 of a pass: the `pendingStartGIF` block (sketch lines
1855-1859). -/
def loopGifStartPhase (now : Nat) (gifOpenOk : Bool) (gifOpenErr : Int) (d : Dev) :
    Dev × List Ev :=
  if d.pendingStartGIF then
    let d := { d with pendingStartGIF := false }
    let r := startGifPlayback now gifOpenOk gifOpenErr true d
    (r.2, [Ev.gifStarted r.1])
  else (d, [])

/-- `uint32_t` subtraction, for the sketch's wrap-safe due check. -/
def uint32sub (a b : Nat) : Nat :=
  ((a % 4294967296) + 4294967296 - (b % 4294967296)) % 4294967296

/-- The sketch's `(int32_t)(now - gifNextFrameMs) >= 0` frame-due test. -/
def gifFrameDue (now next : Nat) : Bool :=
  decide (0 ≤ int32 (uint32sub now next))

/-- Phase 4 of a pass: the animation tick (sketch lines 1862-1883).  The
decode outcome of `gif.playFrame` (`frameOk`), its reported delay and
error code are external inputs; on a finished/failed frame a looping
session is reopened, otherwise playback stops; on success the next due
time is the clamped delay from now. -/
def loopTickPhase (now : Nat) (gifOpenOk : Bool) (gifOpenErr : Int) (frameOk : Bool)
    (frameDelay frameErr : Int) (d : Dev) : Dev × List Ev :=
  if d.gifPlaying then
    if gifFrameDue now d.gifNextFrameMs then
      let d := { d with gifLastError := frameErr, gifLastDelayMs := frameDelay }
      if frameOk = false then
        if d.gifLoop then
          let d := { d with gifSessionOpen := false }
          let r := startGifPlayback now gifOpenOk gifOpenErr true d
          (r.2, [Ev.framePlayed, Ev.gifStarted r.1])
        else (stopGifPlayback d, [Ev.framePlayed])
      else
        let delay := if frameDelay < 20 then 20 else frameDelay
        ({ d with gifNextFrameMs := (now + delay.toNat) % 4294967296 }, [Ev.framePlayed])
    else (d, [])
  else (d, [])

/-- One pass of `loop()`: dispatch, then the pending-draw block (possibly
ending the pass early), then the pending-GIF block, then the tick. -/
def loopPass (tftW tftH now : Nat) (sdb opk gifOpenOk : Bool) (gifOpenErr : Int)
    (frameOk : Bool) (frameDelay frameErr : Int) (req : Option Req) (d : Dev) :
    Dev × List Ev :=
  let p1 := loopDispatch now sdb opk gifOpenOk gifOpenErr req d
  let p2 := loopDrawPhase tftW tftH p1.1
  if p2.2.2 = false then (p2.1, p1.2 ++ p2.2.1)
  else
    let p3 := loopGifStartPhase now gifOpenOk gifOpenErr p2.1
    let p4 := loopTickPhase now gifOpenOk gifOpenErr frameOk frameDelay frameErr p3.1
    (p4.1, p1.2 ++ p2.2.1 ++ p3.2 ++ p4.2)

/-! ### Per-phase log shapes -/

theorem loopDispatch_log (now : Nat) (sdb opk gifOpenOk : Bool) (gifOpenErr : Int)
    (req : Option Req) (d : Dev) :
    ∀ e ∈ (loopDispatch now sdb opk gifOpenOk gifOpenErr req d).2, e = Ev.reqDispatched := by
  cases req <;> simp [loopDispatch]

theorem loopDrawPhase_log (tftW tftH : Nat) (d : Dev) :
    ∀ e ∈ (loopDrawPhase tftW tftH d).2.1,
      e = Ev.bannered ∨ ∃ r, e = Ev.drewStill r := by
  intro e he
  unfold loopDrawPhase at he
  simp only [apply_ite (fun p : Dev × List Ev × Bool => p.2.1)] at he
  split_ifs at he <;> simp_all
  all_goals tauto

theorem loopGifStartPhase_log (now : Nat) (gifOpenOk : Bool) (gifOpenErr : Int) (d : Dev) :
    ∀ e ∈ (loopGifStartPhase now gifOpenOk gifOpenErr d).2, ∃ ok, e = Ev.gifStarted ok := by
  intro e he
  unfold loopGifStartPhase at he
  simp only [apply_ite (fun p : Dev × List Ev => p.2)] at he
  split_ifs at he <;> simp_all

theorem loopTickPhase_log (now : Nat) (gifOpenOk : Bool) (gifOpenErr : Int) (frameOk : Bool)
    (frameDelay frameErr : Int) (d : Dev) :
    ∀ e ∈ (loopTickPhase now gifOpenOk gifOpenErr frameOk frameDelay frameErr d).2,
      e = Ev.framePlayed ∨ ∃ ok, e = Ev.gifStarted ok := by
  intro e he
  unfold loopTickPhase at he
  simp only [apply_ite (fun p : Dev × List Ev => p.2)] at he
  split_ifs at he <;> simp only [List.mem_cons, List.not_mem_nil, or_false] at he
  all_goals first
    | exact he.elim (fun h => Or.inl h) (fun h => Or.inr ⟨_, h⟩)
    | exact Or.inl he

/-- C7 amended: every loop pass's action log decomposes, in order, into a
dispatch part (which contains no rendering action at all), then the
pending-draw part, then the pending-GIF-start part, then the animation
tick part — so dispatch happens before pending-flag handling before the
tick.  (The original claim's further consequence that an upload completed
in a pass is not rendered until the NEXT pass is false: see the
counterexample — the draw runs later in the same pass, after dispatch
returns.) -/
theorem loop_pass_phase_order (tftW tftH now : Nat) (sdb opk gifOpenOk : Bool)
    (gifOpenErr : Int) (frameOk : Bool) (frameDelay frameErr : Int)
    (req : Option Req) (d : Dev) :
    ∃ l1 l2 l3 l4,
      (loopPass tftW tftH now sdb opk gifOpenOk gifOpenErr frameOk frameDelay frameErr
          req d).2 = l1 ++ l2 ++ l3 ++ l4 ∧
      (∀ e ∈ l1, e = Ev.reqDispatched) ∧
      (∀ e ∈ l2, e = Ev.bannered ∨ ∃ r, e = Ev.drewStill r) ∧
      (∀ e ∈ l3, ∃ ok, e = Ev.gifStarted ok) ∧
      (∀ e ∈ l4, e = Ev.framePlayed ∨ ∃ ok, e = Ev.gifStarted ok) := by
  by_cases hc :
      (loopDrawPhase tftW tftH (loopDispatch now sdb opk gifOpenOk gifOpenErr req d).1).2.2
        = false
  · refine ⟨(loopDispatch now sdb opk gifOpenOk gifOpenErr req d).2,
      (loopDrawPhase tftW tftH (loopDispatch now sdb opk gifOpenOk gifOpenErr req d).1).2.1,
      [], [], ?_, loopDispatch_log now sdb opk gifOpenOk gifOpenErr req d,
      loopDrawPhase_log tftW tftH _, by simp, by simp⟩
    simp [loopPass, hc]
  · refine ⟨(loopDispatch now sdb opk gifOpenOk gifOpenErr req d).2,
      (loopDrawPhase tftW tftH (loopDispatch now sdb opk gifOpenOk gifOpenErr req d).1).2.1,
      (loopGifStartPhase now gifOpenOk gifOpenErr
        (loopDrawPhase tftW tftH (loopDispatch now sdb opk gifOpenOk gifOpenErr req d).1).1).2,
      (loopTickPhase now gifOpenOk gifOpenErr frameOk frameDelay frameErr
        (loopGifStartPhase now gifOpenOk gifOpenErr
          (loopDrawPhase tftW tftH
            (loopDispatch now sdb opk gifOpenOk gifOpenErr req d).1).1).1).2,
      ?_, loopDispatch_log now sdb opk gifOpenOk gifOpenErr req d,
      loopDrawPhase_log tftW tftH _, loopGifStartPhase_log now gifOpenOk gifOpenErr _,
      loopTickPhase_log now gifOpenOk gifOpenErr frameOk frameDelay frameErr _⟩
    simp [loopPass, hc]

/-- C7 counterexample: the claim that an upload completing during a pass
cannot begin being rendered until the next pass is false.  A BMP upload
that completes inside the dispatch phase of a pass sets `pendingDrawBMP`,
and the very same pass's pending-flag block then draws the image: the
pass's log already contains the completed draw. -/
theorem loop_same_pass_render :
    (loopPass 320 240 0 true true true 0 true 0 0
        (some (Req.uploadBmp [oneByOneBmp])) devInit).2
      = [Ev.reqDispatched, Ev.drewStill BmpResult.ok] := by
  rfl

/-- Witness for C5 at a concrete 320x240 24-bit bottom-up bitmap file. -/
theorem drawStill_row_order_witness :
    parseBMPHeader bmp320 = (Except.ok info320, 54) ∧
    (∀ r, r < bmpDrawH 240 info320 →
        rowPosOf info320 r + bmpNeed 320 info320 ≤ bmp320.length) ∧
    ((drawBMPFromSD_Safe 320 240 true (some bmp320)).rows
        = (List.range (bmpDrawH 240 info320)).map (mkRow bmp320 320 info320) ∧
     (∀ r, 0 ≤ info320.hRaw → rowSrcOf info320 r = info320.hRaw.natAbs - 1 - r) ∧
     (∀ r, info320.hRaw < 0 → rowSrcOf info320 r = r) ∧
     (∀ r, info320.pixelOffset + rowSrcOf info320 r * bmpRowSize info320 < 4294967296 →
        rowPosOf info320 r = info320.pixelOffset + rowSrcOf info320 r * bmpRowSize info320) ∧
     (info320.hRaw = 240 → rowSrcOf info320 0 = 239) ∧
     ((240 : Nat) = 240 → info320.hRaw = 240 →
        (drawBMPFromSD_Safe 320 240 true (some bmp320)).rows.length = 240) ∧
     (∀ rr ∈ (drawBMPFromSD_Safe 320 240 true (some bmp320)).rows,
        (rowTo565 rr.data (bmpBpp info320) (bmpDrawW 320 info320)).length
          = bmpDrawW 320 info320)) := by
  have hlen : bmp320.length = 230454 := by
    rw [bmp320, List.length_append, List.length_replicate]
    rfl
  have hread : ∀ r, r < bmpDrawH 240 info320 →
      rowPosOf info320 r + bmpNeed 320 info320 ≤ bmp320.length := by
    intro r hr
    rw [hlen]
    have hdh : bmpDrawH 240 info320 = 240 := by decide
    rw [hdh] at hr
    have hsrc : rowSrcOf info320 r = 239 - r := by
      simp only [rowSrcOf, info320]
      norm_num
    have hrs : bmpRowSize info320 = 960 := by decide
    have hneed : bmpNeed 320 info320 = 960 := by decide
    have hpo : info320.pixelOffset = 54 := rfl
    simp only [rowPosOf]
    rw [hsrc, hrs, hneed, hpo]
    have hmul : (239 - r) * 960 ≤ 239 * 960 := Nat.mul_le_mul_right _ (by omega)
    have hlt : 54 + (239 - r) * 960 < 4294967296 := by omega
    rw [Nat.mod_eq_of_lt hlt]
    omega
  exact ⟨by decide, hread, drawStill_row_order 320 240 bmp320 info320 (by decide) hread⟩
